import Mathlib

/-!
Verification development for the tornadorpc base RPC dispatch engine
(`tornadorpc/base.py`).

The Python code is shallowly embedded: Python values become `PyVal`,
the application handler object graph becomes `PyObj` (an attribute tree
whose nodes may carry a `private` marker and may be callable), Python
callables become `PyFunc` (a signature with optional defaults plus a
body that either returns a value or raises an exception of a given
class), and the observable side effects of a request (invoking a
callable, reporting to the diagnostic/traceback hook) are collected in
an explicit event trace.  `check_method`, `dispatch` and `run` are
direct translations of the corresponding methods of `BaseRPCParser`;
the abstract collaborator functions (`parse_request`,
`parse_responses`, `encode`) and the reserved attribute list of the
transport `RequestHandler` base class (external to this repository) are
parameters, gathered in `RunEnv`.
-/

set_option autoImplicit false

/-- Python values, as far as the dispatch core observes them.
`fault c m` models a `library.Fault(code, message)` instance. -/
inductive PyVal where
  | pyNone : PyVal
  | bool : Bool → PyVal
  | int : Int → PyVal
  | str : String → PyVal
  | fault : Int → String → PyVal
  | vlist : List PyVal → PyVal

/-- Whether a value is a Python string (`type(x) in types.StringTypes`). -/
def PyVal.isStr : PyVal → Bool
  | .str _ => true
  | _ => false

/-- The `params` value of one invocation descriptor, discriminated the
way `dispatch` discriminates it: `types.DictType`, `types.ListType`,
`types.TupleType`, or anything else. -/
inductive Params where
  | dict : List (String × PyVal) → Params
  | list : List PyVal → Params
  | tuple : List PyVal → Params
  | other : PyVal → Params

/-- Exception classes the dispatch code distinguishes: `TypeError`
versus every other exception class. -/
inductive PyExc where
  | typeError : PyExc
  | otherExc : PyExc

/-- Outcome of executing a Python function body on a bound environment. -/
inductive BodyOutcome where
  | ok : PyVal → BodyOutcome
  | raise : PyExc → BodyOutcome

/-- One declared parameter of a Python function: a name and an optional
default value. -/
structure PyParam where
  name : String
  default : Option PyVal

/-- A Python callable: its declared signature (in order, with optional
defaults) and its body, run on the environment produced by argument
binding. -/
structure PyFunc where
  sig : List PyParam
  body : List (String × PyVal) → BodyOutcome

/-- A node of the application handler object graph: named attributes,
the `private` marker (`'private' in dir(obj) and obj.private is True`),
and an optional callable payload (`callable(obj)`). -/
inductive PyObj where
  | mk : List (String × PyObj) → Bool → Option PyFunc → PyObj

/-- The attribute list of an object. -/
def PyObj.attrs : PyObj → List (String × PyObj)
  | .mk a _ _ => a

/-- The `private` marker of an object. -/
def PyObj.priv : PyObj → Bool
  | .mk _ p _ => p

/-- The callable payload of an object, if any. -/
def PyObj.func : PyObj → Option PyFunc
  | .mk _ _ f => f

/-- Split a character list on a separator, Python `str.split(sep)`
semantics: `"" .split sep = [""]`, separators delimit (possibly empty)
groups. -/
def splitChars (sep : Char) : List Char → List (List Char)
  | [] => [[]]
  | c :: cs =>
    if c = sep then [] :: splitChars sep cs
    else
      match splitChars sep cs with
      | [] => [[c]]
      | g :: gs => (c :: g) :: gs

/-- Python `s.split(sep)` for a one-character separator. -/
def pySplit (sep : Char) (s : String) : List String :=
  (splitChars sep s.data).map fun cs => String.mk cs

/-- Python `s.startswith('_')`. -/
def startsWithUnderscore (s : String) : Bool :=
  match s.data with
  | [] => false
  | c :: _ => c = '_'

/-- Python `str.capitalize`: first character uppercased, the rest
lowercased. -/
def pyCapitalize (s : String) : String :=
  match s.data with
  | [] => ""
  | c :: cs => String.mk (c.toUpper :: cs.map Char.toLower)

/-- Python `' '.join(strings)`. -/
def joinSpace : List String → String
  | [] => ""
  | [s] => s
  | s :: rest => s ++ " " ++ joinSpace rest

/-- Association-list lookup with string keys (Python attribute/dict
lookup). -/
def lookupStr {α : Type} : List (String × α) → String → Option α
  | [], _ => none
  | (k, v) :: rest, key => if k = key then some v else lookupStr rest key

/-- The `Faults.codes` dictionary of `base.py`. -/
def faultCodes : List (String × Int) :=
  [("parse_error", -32700),
   ("method_not_found", -32601),
   ("invalid_request", -32600),
   ("invalid_params", -32602),
   ("internal_error", -32603)]

/-- The `Faults.messages` dictionary of `base.py` (empty). -/
def faultMessages : List (String × String) := []

/-- The default message computed by `Faults.__getattr__`: the
registered message if any, otherwise the symbolic name split on `_`,
each word capitalized, joined with spaces. -/
def defaultMessage (attr : String) : String :=
  match lookupStr faultMessages attr with
  | some m => m
  | none => joinSpace ((pySplit '_' attr).map pyCapitalize)

/-- The `FaultMethod` object of `base.py`: a stored code and (mutable)
message. -/
structure FaultMethod where
  code : Int
  message : String

/-- `FaultMethod.__call__(message=None)`: a truthy override message is
stored into the method before the Fault value is built, so the returned
pair is the (possibly mutated) `FaultMethod` together with the Fault
value it produced. -/
def FaultMethod.call (fm : FaultMethod) (message : Option String) : FaultMethod × PyVal :=
  let fm2 := match message with
    | some m => if m = "" then fm else { fm with message := m }
    | none => fm
  (fm2, PyVal.fault fm2.code fm2.message)

/-- `Faults.__getattr__(attr)`: constructs a fresh `FaultMethod` from
the code table and the default message; `none` models the `KeyError`
raised for an unknown symbolic name. -/
def faultsGetattr (attr : String) : Option FaultMethod :=
  (lookupStr faultCodes attr).map fun c => { code := c, message := defaultMessage attr }

/-- `self.faults.NAME()`: a fresh lookup followed by a call with no
override message.  The `PyVal.pyNone` branch models the `KeyError`
programming-error case and is never reached for the names used by the
dispatch core. -/
def faultCall (name : String) : PyVal :=
  match faultsGetattr name with
  | some fm => (fm.call none).2
  | none => PyVal.pyNone

/-- Bind the remaining (unsupplied) parameters to their defaults;
a missing default is a `TypeError` (modeled as `none`). -/
def bindDefaults : List PyParam → Option (List (String × PyVal))
  | [] => some []
  | p :: ps =>
    match p.default, bindDefaults ps with
    | some d, some env2 => some ((p.name, d) :: env2)
    | _, _ => none

/-- Python positional-argument binding `f(*args)`: arguments fill the
declared parameters in order, extra arguments or missing non-default
parameters raise `TypeError` (modeled as `none`). -/
def bindPos : List PyParam → List PyVal → Option (List (String × PyVal))
  | ps, [] => bindDefaults ps
  | [], _ :: _ => none
  | p :: ps, a :: args =>
    match bindPos ps args with
    | some env2 => some ((p.name, a) :: env2)
    | none => none

/-- Whether the signature declares a parameter with the given name. -/
def hasParamNamed : List PyParam → String → Bool
  | [], _ => false
  | p :: ps, n => if p.name = n then true else hasParamNamed ps n

/-- Whether every keyword argument names a declared parameter
(an unexpected keyword raises `TypeError`). -/
def allKeysKnown (ps : List PyParam) : List (String × PyVal) → Bool
  | [] => true
  | kv :: rest => hasParamNamed ps kv.1 && allKeysKnown ps rest

/-- Bind declared parameters against keyword arguments: an explicit
keyword wins, otherwise the default, otherwise `TypeError`. -/
def bindKwAux (kwargs : List (String × PyVal)) : List PyParam → Option (List (String × PyVal))
  | [] => some []
  | p :: ps =>
    match bindKwAux kwargs ps with
    | none => none
    | some env2 =>
      match lookupStr kwargs p.name with
      | some v => some ((p.name, v) :: env2)
      | none =>
        match p.default with
        | some d => some ((p.name, d) :: env2)
        | none => none

/-- Python keyword-argument binding `f(**kwargs)`. -/
def bindKw (ps : List PyParam) (kwargs : List (String × PyVal)) : Option (List (String × PyVal)) :=
  if allKeysKnown ps kwargs then bindKwAux kwargs ps else none

/-- What a call expression can be observed to do by the `try/except`
ladder around it in `dispatch`: return a value, raise `TypeError`
(whether from binding or from the body), or raise any other
exception. -/
inductive CallOutcome where
  | ok : PyVal → CallOutcome
  | typeError : CallOutcome
  | exc : CallOutcome

/-- Execute a function body on a bound environment; an exception raised
by the body propagates out of the call with its class. -/
def runBody (f : PyFunc) (env2 : List (String × PyVal)) : CallOutcome :=
  match f.body env2 with
  | .ok v => .ok v
  | .raise .typeError => .typeError
  | .raise .otherExc => .exc

/-- The call expression `method(*params)`. -/
def callPos (f : PyFunc) (args : List PyVal) : CallOutcome :=
  match bindPos f.sig args with
  | none => .typeError
  | some env2 => runBody f env2

/-- The call expression `method(**params)`. -/
def callKw (f : PyFunc) (kwargs : List (String × PyVal)) : CallOutcome :=
  match bindKw f.sig kwargs with
  | none => .typeError
  | some env2 => runBody f env2

/-- Python `getattr(obj, name)` on the modeled object graph (`none`
models `AttributeError`). -/
def lookupAttr (obj : PyObj) (name : String) : Option PyObj :=
  lookupStr obj.attrs name

/-- `BaseRPCParser.check_method`: rejects a leading-underscore segment,
then resolves the attribute, then rejects a `private is True` marker;
`none` models the raised `AttributeError`. -/
def check_method (attr_name : String) (obj : PyObj) : Option PyObj :=
  if startsWithUnderscore attr_name then none
  else
    match lookupAttr obj attr_name with
    | none => none
    | some attr => if attr.priv then none else some attr

/-- The `for attr_name in attr_tree` loop of `dispatch`: fold
`check_method` over the dotted path segments, aborting on the first
`AttributeError`. -/
def walkAttrs : PyObj → List String → Option PyObj
  | obj, [] => some obj
  | obj, a :: rest =>
    match check_method a obj with
    | none => none
    | some m => walkAttrs m rest

/-- Observable side effects of the dispatch core: the call expression
on the resolved method was executed, or the diagnostic hook
(`self.traceback(method_name, params)`) was invoked. -/
inductive Event where
  | invoke : String → Params → Event
  | traceback : String → Params → Event

/-- The `try/except TypeError/except` ladder around the call expression
in `dispatch`: a returned value passes through, `TypeError` becomes the
`invalid_params` fault, any other exception is reported to the
diagnostic hook and becomes the `internal_error` fault. -/
def invokeResult (name : String) (params : Params) : CallOutcome → PyVal × List Event
  | .ok v => (v, [Event.invoke name params])
  | .typeError => (faultCall "invalid_params", [Event.invoke name params])
  | .exc =>
      (faultCall "internal_error",
       [Event.invoke name params, Event.traceback name params])

/-- The parameter-shape discrimination of `dispatch`: dict params are
passed as keywords, list or tuple params positionally, and any other
shape is the `invalid_params` fault with no invocation. -/
def dispatchInvoke (name : String) (params : Params) (f : PyFunc) : PyVal × List Event :=
  match params with
  | .dict kwargs => invokeResult name (Params.dict kwargs) (callKw f kwargs)
  | .list args => invokeResult name (Params.list args) (callPos f args)
  | .tuple args => invokeResult name (Params.tuple args) (callPos f args)
  | .other _ => (faultCall "invalid_params", [])

/-- The checks `dispatch` performs on the object the attribute walk
resolved: it must be callable, and neither the full method name may
start with `_` nor the object carry the `private` marker. -/
def dispatchResolved (name : String) (params : Params) (method : PyObj) : PyVal × List Event :=
  match method.func with
  | none => (faultCall "method_not_found", [])
  | some f =>
    if startsWithUnderscore name || method.priv then
      (faultCall "method_not_found", [])
    else dispatchInvoke name params f

/-- `BaseRPCParser.dispatch`: refuse method names that collide with an
attribute of the transport `RequestHandler` base class (`reserved`),
walk the dotted attribute path with `check_method`, then check
callability and privacy, then bind and invoke. -/
def dispatch (reserved : List String) (handler : PyObj) (method_name : String)
    (params : Params) : PyVal × List Event :=
  if method_name ∈ reserved then (faultCall "method_not_found", [])
  else
    match walkAttrs handler (pySplit '.' method_name) with
    | none => (faultCall "method_not_found", [])
    | some method => dispatchResolved method_name params method

/-- What `parse_request` can hand back to `run`, discriminated the way
`run` discriminates it: a tuple of invocation descriptors, a string, a
non-tuple object exposing a `response()` method (modeled by the value
that method returns), or any other object. -/
inductive ParseOutput where
  | tuple : List (String × Params) → ParseOutput
  | text : String → ParseOutput
  | respObj : PyVal → ParseOutput
  | passThrough : PyVal → ParseOutput

/-- The environment `run` executes in: the reserved transport-handler
attribute names, the application handler graph, and the abstract
collaborator functions (`parse_request` may raise, modeled by
`Except.error`). -/
structure RunEnv where
  reserved : List String
  handler : PyObj
  parse_request : String → Except Unit ParseOutput
  parse_responses : List PyVal → PyVal
  encode : PyVal → PyVal

/-- The `responses` list built by the dispatch loop of `run`: one
dispatch result per descriptor, in order. -/
def runResponses (env : RunEnv) (reqs : List (String × Params)) : List PyVal :=
  reqs.map fun r => (dispatch env.reserved env.handler r.1 r.2).1

/-- The events emitted by the dispatch loop of `run`, in order. -/
def runEvents (env : RunEnv) (reqs : List (String × Params)) : List Event :=
  reqs.foldr (fun r acc => (dispatch env.reserved env.handler r.1 r.2).2 ++ acc) []

/-- The final re-encoding step of `run`: a string result is returned
as-is, anything else is passed through `encode`. -/
def encodeIfNeeded (env : RunEnv) (response_text : PyVal) : PyVal :=
  match response_text with
  | .str s => .str s
  | v => env.encode v

/-- `BaseRPCParser.run`: parse inside a failure boundary (an exception
becomes a `parse_error` fault after a diagnostic-hook report), branch
on the shape of the parser result, dispatch a tuple of descriptors in
order, compose, and re-encode a non-string composition. -/
def run (env : RunEnv) (request_body : String) : PyVal × List Event :=
  match env.parse_request request_body with
  | .error _ =>
      (faultCall "parse_error", [Event.traceback "REQUEST" (Params.list [])])
  | .ok (.text s) => (PyVal.str s, [])
  | .ok (.respObj r) => (r, [])
  | .ok (.passThrough v) => (v, [])
  | .ok (.tuple reqs) =>
      (encodeIfNeeded env (env.parse_responses (runResponses env reqs)),
       runEvents env reqs)

/-- The condition of claim C2, as a predicate on the handler graph and
a dotted path: some segment starts with `_`, or some attribute actually
resolved along the path (including the final one) carries the `private`
marker. -/
def hitsPrivate : PyObj → List String → Bool
  | _, [] => false
  | obj, s :: rest =>
    startsWithUnderscore s ||
      (match lookupAttr obj s with
       | none => false
       | some a => a.priv || hitsPrivate a rest)

/-- The `add` test method of `TestRPCHandler`: integer addition,
`TypeError` on non-integer operands. -/
def addFunc : PyFunc where
  sig := [{ name := "x", default := none }, { name := "y", default := none }]
  body := fun env2 =>
    match lookupStr env2 "x", lookupStr env2 "y" with
    | some (.int a), some (.int b) => .ok (.int (a + b))
    | _, _ => .raise .typeError

/-- The `ping` test method of `TestRPCHandler`: identity. -/
def pingFunc : PyFunc where
  sig := [{ name := "x", default := none }]
  body := fun env2 =>
    match lookupStr env2 "x" with
    | some v => .ok v
    | none => .raise .otherExc

/-- The `power` test method of `TestMethodTree`: `pow(x, y)` with
default `y = 2`. -/
def powerFunc : PyFunc where
  sig := [{ name := "x", default := none }, { name := "y", default := some (PyVal.int 2) }]
  body := fun env2 =>
    match lookupStr env2 "x", lookupStr env2 "y" with
    | some (.int a), some (.int b) =>
        if 0 ≤ b then .ok (.int (a ^ b.toNat)) else .raise .otherExc
    | _, _ => .raise .typeError

/-- A test method body that just returns `False` (the bodies of the
private test methods, which must never be reached). -/
def falseFunc : PyFunc where
  sig := []
  body := fun _ => .ok (PyVal.bool false)

/-- A plain (non-private) method object. -/
def funcObj (f : PyFunc) : PyObj := PyObj.mk [] false (some f)

/-- A method wrapped by the `private` decorator: callable, with the
`private` marker set to `True`. -/
def privateMethodObj (f : PyFunc) : PyObj := PyObj.mk [] true (some f)

/-- The `TestMethodTree` instance: `power`, plus a `private`-decorated
method. -/
def testMethodTree : PyObj :=
  PyObj.mk [("power", funcObj powerFunc), ("private", privateMethodObj falseFunc)] false none

/-- The `TestRPCHandler` instance: `add`, `ping`, `tree`, a
leading-underscore method and a `private`-decorated method. -/
def testRPCHandler : PyObj :=
  PyObj.mk
    [("add", funcObj addFunc),
     ("ping", funcObj pingFunc),
     ("tree", testMethodTree),
     ("_private", funcObj falseFunc),
     ("private", privateMethodObj falseFunc)]
    false none

/-- A representative fragment of `dir(RequestHandler)`: attribute names
already present on the transport-handler base class. -/
def requestHandlerAttrs : List String :=
  ["get", "post", "put", "delete", "head", "options", "write", "finish",
   "flush", "redirect", "render", "set_header", "set_status", "get_argument"]

/-- A callable whose binding always succeeds (empty signature) and
whose body raises `TypeError`. -/
def typeErrorBodyFunc : PyFunc where
  sig := []
  body := fun _ => .raise .typeError

/-- A handler exposing `boom`, whose body raises `TypeError`. -/
def cexHandler : PyObj := PyObj.mk [("boom", funcObj typeErrorBodyFunc)] false none

/-- A callable whose body raises a non-`TypeError` exception. -/
def raisingFunc : PyFunc where
  sig := []
  body := fun _ => .raise .otherExc

/-- A handler exposing `kaboom`, whose body raises a non-`TypeError`
exception. -/
def errorHandler : PyObj := PyObj.mk [("kaboom", funcObj raisingFunc)] false none

/-- A concrete two-descriptor batch: `add` positionally and by
keyword. -/
def goodReqs : List (String × Params) :=
  [("add", Params.list [PyVal.int 5, PyVal.int 4]),
   ("add", Params.dict [("x", PyVal.int 5), ("y", PyVal.int 4)])]

/-- A concrete run environment over the test handler: body `"good"`
parses to `goodReqs`, body `"text"` parses to a pre-formed string
response, anything else makes the parser raise. -/
def testEnv : RunEnv where
  reserved := requestHandlerAttrs
  handler := testRPCHandler
  parse_request := fun body =>
    if body = "good" then Except.ok (ParseOutput.tuple goodReqs)
    else if body = "text" then Except.ok (ParseOutput.text "hello")
    else Except.error ()
  parse_responses := fun rs => PyVal.vlist rs
  encode := fun _ => PyVal.str "encoded"

/-- Like `testEnv`, but the response composer returns final text
directly. -/
def textEnv : RunEnv :=
  { testEnv with parse_responses := fun _ => PyVal.str "composed" }

/-! Helper lemmas: the concrete Fault values produced by the fault
table for the symbolic names the dispatch core uses. -/

theorem faultCall_method_not_found :
    faultCall "method_not_found" = PyVal.fault (-32601) "Method Not Found" := rfl

theorem faultCall_invalid_params :
    faultCall "invalid_params" = PyVal.fault (-32602) "Invalid Params" := rfl

theorem faultCall_internal_error :
    faultCall "internal_error" = PyVal.fault (-32603) "Internal Error" := rfl

theorem faultCall_parse_error :
    faultCall "parse_error" = PyVal.fault (-32700) "Parse Error" := rfl

/-- Helper: when the method name is not reserved, `dispatch` is the
attribute walk followed by `dispatchResolved`. -/
theorem dispatch_eq_resolved (reserved : List String) (handler : PyObj)
    (method_name : String) (params : Params) (method : PyObj)
    (hres : method_name ∉ reserved)
    (hwalk : walkAttrs handler (pySplit '.' method_name) = some method) :
    dispatch reserved handler method_name params = dispatchResolved method_name params method := by
  unfold dispatch
  rw [if_neg hres, hwalk]

/-- Helper: a path on which `hitsPrivate` holds makes the attribute
walk abort with `AttributeError`. -/
theorem hitsPrivate_walk_none : ∀ (segs : List String) (obj : PyObj),
    hitsPrivate obj segs = true → walkAttrs obj segs = none := by
  intro segs
  induction segs with
  | nil => intro obj h; simp [hitsPrivate] at h
  | cons s rest ih =>
    intro obj h
    cases hu : startsWithUnderscore s with
    | true => simp [walkAttrs, check_method, hu]
    | false =>
      cases hl : lookupAttr obj s with
      | none => simp [hitsPrivate, hu, hl] at h
      | some a =>
        cases hp : a.priv with
        | true => simp [walkAttrs, check_method, hu, hl, hp]
        | false =>
          simp only [hitsPrivate, hu, hl, hp, Bool.false_or] at h
          simp [walkAttrs, check_method, hu, hl, hp]
          exact ih a h

/-- C2: for every dotted method name in which some segment starts with
an underscore, or some attribute resolved along the path (including the
final one) carries the private marker, `dispatch` returns the
`method_not_found` fault (code -32601) and emits no event — in
particular the target callable is never invoked. -/
theorem dispatch_private_method_not_found (reserved : List String) (handler : PyObj)
    (method_name : String) (params : Params)
    (h : hitsPrivate handler (pySplit '.' method_name) = true) :
    dispatch reserved handler method_name params
      = (PyVal.fault (-32601) "Method Not Found", []) := by
  unfold dispatch
  rw [hitsPrivate_walk_none _ _ h]
  by_cases hr : method_name ∈ reserved
  · rw [if_pos hr, faultCall_method_not_found]
  · rw [if_neg hr, faultCall_method_not_found]

/-- Witness for C2: `tree.private` is refused on the test handler. -/
theorem dispatch_private_method_not_found_witness :
    hitsPrivate testRPCHandler (pySplit '.' "tree.private") = true
    ∧ dispatch requestHandlerAttrs testRPCHandler "tree.private" (Params.list [])
        = (PyVal.fault (-32601) "Method Not Found", []) :=
  ⟨rfl, dispatch_private_method_not_found requestHandlerAttrs testRPCHandler
    "tree.private" (Params.list []) rfl⟩

/-- C3: a method name that, taken as the full unsplit string, is an
attribute already present on the transport-handler base type is refused
with `method_not_found` unconditionally — for every handler and params,
before any attribute walking, with no event emitted. -/
theorem dispatch_reserved_name_refused (reserved : List String) (handler : PyObj)
    (method_name : String) (params : Params) (h : method_name ∈ reserved) :
    dispatch reserved handler method_name params
      = (PyVal.fault (-32601) "Method Not Found", []) := by
  unfold dispatch
  rw [if_pos h, faultCall_method_not_found]

/-- Witness for C3: `post` collides with the transport handler. -/
theorem dispatch_reserved_name_refused_witness :
    "post" ∈ requestHandlerAttrs
    ∧ dispatch requestHandlerAttrs testRPCHandler "post" (Params.list [PyVal.int 1])
        = (PyVal.fault (-32601) "Method Not Found", []) :=
  ⟨by decide, dispatch_reserved_name_refused requestHandlerAttrs testRPCHandler
    "post" (Params.list [PyVal.int 1]) (by decide)⟩

/-- C4: for a resolved, callable, non-private method, params whose
shape is neither a mapping nor a list/tuple produce the
`invalid_params` fault (code -32602) with no event — the target is
never invoked. -/
theorem dispatch_bad_params_shape (reserved : List String) (handler : PyObj)
    (method_name : String) (method : PyObj) (f : PyFunc) (v : PyVal)
    (hres : method_name ∉ reserved)
    (hwalk : walkAttrs handler (pySplit '.' method_name) = some method)
    (hf : method.func = some f)
    (hu : startsWithUnderscore method_name = false)
    (hp : method.priv = false) :
    dispatch reserved handler method_name (Params.other v)
      = (PyVal.fault (-32602) "Invalid Params", []) := by
  rw [dispatch_eq_resolved reserved handler method_name (Params.other v) method hres hwalk]
  unfold dispatchResolved
  rw [hf]
  simp [hu, hp, dispatchInvoke, faultCall_invalid_params]

/-- Witness for C4: `add` with a bare integer as params. -/
theorem dispatch_bad_params_shape_witness :
    dispatch requestHandlerAttrs testRPCHandler "add" (Params.other (PyVal.int 7))
      = (PyVal.fault (-32602) "Invalid Params", []) :=
  dispatch_bad_params_shape requestHandlerAttrs testRPCHandler "add"
    (funcObj addFunc) addFunc (PyVal.int 7) (by decide) rfl rfl rfl rfl

/-- C5: for a resolved, callable, non-private method whose call does
not raise, the dispatch result is exactly the result of direct
invocation — keyword binding for mapping params, positional binding for
list or tuple params. -/
theorem dispatch_success_eq_direct (reserved : List String) (handler : PyObj)
    (method_name : String) (method : PyObj) (f : PyFunc)
    (hres : method_name ∉ reserved)
    (hwalk : walkAttrs handler (pySplit '.' method_name) = some method)
    (hf : method.func = some f)
    (hu : startsWithUnderscore method_name = false)
    (hp : method.priv = false) :
    (∀ kwargs v, callKw f kwargs = CallOutcome.ok v →
        (dispatch reserved handler method_name (Params.dict kwargs)).1 = v)
    ∧ (∀ args v, callPos f args = CallOutcome.ok v →
        (dispatch reserved handler method_name (Params.list args)).1 = v)
    ∧ (∀ args v, callPos f args = CallOutcome.ok v →
        (dispatch reserved handler method_name (Params.tuple args)).1 = v) := by
  refine ⟨?_, ?_, ?_⟩ <;> intro args v hcall <;>
    rw [dispatch_eq_resolved reserved handler method_name _ method hres hwalk] <;>
    unfold dispatchResolved <;> rw [hf] <;>
    simp [hu, hp, dispatchInvoke, hcall, invokeResult]

/-- Witness for C5: `add` with `[5, 4]` and with `{x: 5, y: 4}` both
yield `9`, and `tree.power` with `[3]` yields `9` using the default
`y = 2`. -/
theorem dispatch_success_eq_direct_witness :
    (dispatch requestHandlerAttrs testRPCHandler "add"
        (Params.list [PyVal.int 5, PyVal.int 4])).1 = PyVal.int 9
    ∧ (dispatch requestHandlerAttrs testRPCHandler "add"
        (Params.dict [("x", PyVal.int 5), ("y", PyVal.int 4)])).1 = PyVal.int 9
    ∧ (dispatch requestHandlerAttrs testRPCHandler "tree.power"
        (Params.list [PyVal.int 3])).1 = PyVal.int 9 :=
  ⟨(dispatch_success_eq_direct requestHandlerAttrs testRPCHandler "add"
      (funcObj addFunc) addFunc (by decide) rfl rfl rfl rfl).2.1
      [PyVal.int 5, PyVal.int 4] (PyVal.int 9) rfl,
   (dispatch_success_eq_direct requestHandlerAttrs testRPCHandler "add"
      (funcObj addFunc) addFunc (by decide) rfl rfl rfl rfl).1
      [("x", PyVal.int 5), ("y", PyVal.int 4)] (PyVal.int 9) rfl,
   (dispatch_success_eq_direct requestHandlerAttrs testRPCHandler "tree.power"
      (funcObj powerFunc) powerFunc (by decide) rfl rfl rfl rfl).2.1
      [PyVal.int 3] (PyVal.int 9) rfl⟩

/-- Counterexample for C1: a callable whose binding succeeds (empty
signature, empty args) but whose body raises `TypeError` is classified
as `invalid_params` (code -32602), not `internal_error`, because the
`except TypeError` clause around the call cannot distinguish a body
`TypeError` from a binding failure. -/
theorem dispatch_body_type_error_cex :
    bindPos typeErrorBodyFunc.sig [] = some []
    ∧ typeErrorBodyFunc.body [] = BodyOutcome.raise PyExc.typeError
    ∧ dispatch [] cexHandler "boom" (Params.list [])
        = (PyVal.fault (-32602) "Invalid Params", [Event.invoke "boom" (Params.list [])])
    ∧ (dispatch [] cexHandler "boom" (Params.list [])).1
        ≠ PyVal.fault (-32603) "Internal Error" :=
  ⟨rfl, rfl, rfl, by intro hcon; injection hcon with h1 h2; exact absurd h1 (by decide)⟩

/-- C1 (amended): for a resolved, callable, non-private method and
mapping or list/tuple params, if the bound body raises an exception
other than `TypeError`, `dispatch` returns the `internal_error` fault
(code -32603) and the error is reported to the diagnostic hook with the
method name and params; `dispatch` (a total function here) returns
normally, so no exception escapes it. -/
theorem dispatch_internal_error (reserved : List String) (handler : PyObj)
    (method_name : String) (method : PyObj) (f : PyFunc)
    (hres : method_name ∉ reserved)
    (hwalk : walkAttrs handler (pySplit '.' method_name) = some method)
    (hf : method.func = some f)
    (hu : startsWithUnderscore method_name = false)
    (hp : method.priv = false) :
    (∀ kwargs env2, bindKw f.sig kwargs = some env2 →
        f.body env2 = BodyOutcome.raise PyExc.otherExc →
        dispatch reserved handler method_name (Params.dict kwargs)
          = (PyVal.fault (-32603) "Internal Error",
             [Event.invoke method_name (Params.dict kwargs),
              Event.traceback method_name (Params.dict kwargs)]))
    ∧ (∀ args env2, bindPos f.sig args = some env2 →
        f.body env2 = BodyOutcome.raise PyExc.otherExc →
        dispatch reserved handler method_name (Params.list args)
          = (PyVal.fault (-32603) "Internal Error",
             [Event.invoke method_name (Params.list args),
              Event.traceback method_name (Params.list args)]))
    ∧ (∀ args env2, bindPos f.sig args = some env2 →
        f.body env2 = BodyOutcome.raise PyExc.otherExc →
        dispatch reserved handler method_name (Params.tuple args)
          = (PyVal.fault (-32603) "Internal Error",
             [Event.invoke method_name (Params.tuple args),
              Event.traceback method_name (Params.tuple args)])) := by
  refine ⟨?_, ?_, ?_⟩ <;> intro args env2 hbind hbody <;>
    rw [dispatch_eq_resolved reserved handler method_name _ method hres hwalk] <;>
    unfold dispatchResolved <;> rw [hf]
  · have hout : callKw f args = CallOutcome.exc := by
      simp [callKw, hbind, runBody, hbody]
    simp [hu, hp, dispatchInvoke, hout, invokeResult, faultCall_internal_error]
  · have hout : callPos f args = CallOutcome.exc := by
      simp [callPos, hbind, runBody, hbody]
    simp [hu, hp, dispatchInvoke, hout, invokeResult, faultCall_internal_error]
  · have hout : callPos f args = CallOutcome.exc := by
      simp [callPos, hbind, runBody, hbody]
    simp [hu, hp, dispatchInvoke, hout, invokeResult, faultCall_internal_error]

/-- Witness for C1: `kaboom` raises a non-`TypeError` exception. -/
theorem dispatch_internal_error_witness :
    dispatch requestHandlerAttrs errorHandler "kaboom" (Params.list [])
      = (PyVal.fault (-32603) "Internal Error",
         [Event.invoke "kaboom" (Params.list []),
          Event.traceback "kaboom" (Params.list [])]) :=
  (dispatch_internal_error requestHandlerAttrs errorHandler "kaboom"
    (funcObj raisingFunc) raisingFunc (by decide) rfl rfl rfl rfl).2.1 [] [] rfl rfl

/-- C6: a batch of N descriptors yields exactly N results, the result
at position i coming from dispatching the descriptor at position i, and
`run` hands exactly this ordered list to the response composer. -/
theorem run_batch_results (env : RunEnv) (request_body : String)
    (reqs : List (String × Params))
    (h : env.parse_request request_body = Except.ok (ParseOutput.tuple reqs)) :
    (runResponses env reqs).length = reqs.length
    ∧ (∀ i : Nat, (runResponses env reqs).get? i
        = (reqs.get? i).map fun r => (dispatch env.reserved env.handler r.1 r.2).1)
    ∧ run env request_body
        = (encodeIfNeeded env (env.parse_responses (runResponses env reqs)),
           runEvents env reqs) := by
  refine ⟨List.length_map reqs _, fun i => List.get?_map _ reqs i, ?_⟩
  unfold run
  rw [h]

/-- Witness for C6: the two-descriptor batch of `testEnv`. -/
theorem run_batch_results_witness :
    (runResponses testEnv goodReqs).length = goodReqs.length
    ∧ (runResponses testEnv goodReqs).get? 0
        = (goodReqs.get? 0).map (fun r => (dispatch testEnv.reserved testEnv.handler r.1 r.2).1)
    ∧ run testEnv "good"
        = (encodeIfNeeded testEnv (testEnv.parse_responses (runResponses testEnv goodReqs)),
           runEvents testEnv goodReqs) :=
  ⟨(run_batch_results testEnv "good" goodReqs rfl).1,
   (run_batch_results testEnv "good" goodReqs rfl).2.1 0,
   (run_batch_results testEnv "good" goodReqs rfl).2.2⟩

/-- C7: a parser result that is a tuple of descriptors enters the
dispatch loop (each descriptor dispatched, in order, via
`runResponses`); any other parser result is returned directly — a
string as-is, an object with a `response()` method via that method,
anything else unmodified. -/
theorem run_branch_behavior (env : RunEnv) (request_body : String) :
    (∀ reqs, env.parse_request request_body = Except.ok (ParseOutput.tuple reqs) →
        run env request_body
          = (encodeIfNeeded env (env.parse_responses (runResponses env reqs)),
             runEvents env reqs))
    ∧ (∀ s, env.parse_request request_body = Except.ok (ParseOutput.text s) →
        run env request_body = (PyVal.str s, []))
    ∧ (∀ r, env.parse_request request_body = Except.ok (ParseOutput.respObj r) →
        run env request_body = (r, []))
    ∧ (∀ v, env.parse_request request_body = Except.ok (ParseOutput.passThrough v) →
        run env request_body = (v, [])) := by
  refine ⟨?_, ?_, ?_, ?_⟩ <;> intro x h <;> unfold run <;> rw [h]

/-- Witness for C7: a pre-formed text response passes through as-is. -/
theorem run_branch_behavior_witness :
    run testEnv "text" = (PyVal.str "hello", []) :=
  (run_branch_behavior testEnv "text").2.1 "hello" rfl

/-- C8: if the request parser raises, `run` catches the exception,
reports it to the diagnostic hook, performs no dispatch (the only event
is the hook report — no `invoke` event), and returns the `parse_error`
fault (code -32700). -/
theorem run_parse_failure (env : RunEnv) (request_body : String)
    (h : env.parse_request request_body = Except.error ()) :
    run env request_body
      = (PyVal.fault (-32700) "Parse Error",
         [Event.traceback "REQUEST" (Params.list [])]) := by
  unfold run
  rw [h, faultCall_parse_error]

/-- Witness for C8: `testEnv`'s parser raises on the body `"bad"`. -/
theorem run_parse_failure_witness :
    run testEnv "bad"
      = (PyVal.fault (-32700) "Parse Error",
         [Event.traceback "REQUEST" (Params.list [])]) :=
  run_parse_failure testEnv "bad" rfl

/-- Counterexample for C9: on a body whose parse fails, `run` returns
the raw `parse_error` Fault value itself — fault data, but not a text
payload — so the claim that `run` always hands the transport a
well-formed wire text/bytes payload is false. -/
theorem run_nontext_payload_cex :
    run testEnv "bad"
      = (PyVal.fault (-32700) "Parse Error",
         [Event.traceback "REQUEST" (Params.list [])])
    ∧ PyVal.isStr (run testEnv "bad").1 = false :=
  ⟨rfl, rfl⟩

/-- C9 (amended): `run` always returns a value (it is total); a parse
failure is expressed as fault data — the `parse_error` Fault with code
-32700 and its message — but that Fault value is handed to the
transport directly rather than encoded into a text payload; when the
parser yields a descriptor batch and the response composer produces
text, `run` returns that text payload. -/
theorem run_payload_faults (env : RunEnv) (request_body : String) :
    (env.parse_request request_body = Except.error () →
        run env request_body
          = (PyVal.fault (-32700) "Parse Error",
             [Event.traceback "REQUEST" (Params.list [])]))
    ∧ (∀ reqs s, env.parse_request request_body = Except.ok (ParseOutput.tuple reqs) →
        env.parse_responses (runResponses env reqs) = PyVal.str s →
        run env request_body = (PyVal.str s, runEvents env reqs)) := by
  constructor
  · intro h
    unfold run
    rw [h, faultCall_parse_error]
  · intro reqs s h hcomp
    unfold run
    rw [h]
    show (encodeIfNeeded env (env.parse_responses (runResponses env reqs)),
          runEvents env reqs) = _
    rw [hcomp]
    rfl

/-- Witness for C9: with a composer that returns final text, the batch
path returns that text. -/
theorem run_payload_faults_witness :
    run textEnv "good" = (PyVal.str "composed", runEvents textEnv goodReqs) :=
  (run_payload_faults textEnv "good").2 goodReqs "composed" rfl rfl

/-- C10: a symbolic-name lookup on the fault table always constructs a
fresh `FaultMethod`; calling one with a (truthy) override message
mutates that constructor's stored message and builds the Fault from the
override, yet any later lookup — of the same or another name — still
carries the default message derived from the name, because `faults`
and `__getattr__` construct fresh objects on every access. -/
theorem faults_lookup_fresh (a b m : String) (fma fmb : FaultMethod)
    (ha : faultsGetattr a = some fma) (hm : m ≠ "")
    (hb : faultsGetattr b = some fmb) :
    (fma.call (some m)).1.message = m
    ∧ (fma.call (some m)).2 = PyVal.fault fma.code m
    ∧ fmb.message = defaultMessage b := by
  refine ⟨?_, ?_, ?_⟩
  · unfold FaultMethod.call
    simp [hm]
  · unfold FaultMethod.call
    simp [hm]
  · unfold faultsGetattr at hb
    cases hl : lookupStr faultCodes b with
    | none => rw [hl] at hb; simp at hb
    | some c =>
      rw [hl] at hb
      simp only [Option.map_some', Option.some.injEq] at hb
      rw [← hb]

/-- Witness for C10: overriding the `method_not_found` message with
`"Custom"` mutates that constructor, while a fresh lookup of the same
name still yields the default `"Method Not Found"`. -/
theorem faults_lookup_fresh_witness :
    ((FaultMethod.mk (-32601) "Method Not Found").call (some "Custom")).1.message = "Custom"
    ∧ ((FaultMethod.mk (-32601) "Method Not Found").call (some "Custom")).2
        = PyVal.fault (-32601) "Custom"
    ∧ (FaultMethod.mk (-32601) "Method Not Found").message = defaultMessage "method_not_found" :=
  faults_lookup_fresh "method_not_found" "method_not_found" "Custom"
    (FaultMethod.mk (-32601) "Method Not Found") (FaultMethod.mk (-32601) "Method Not Found")
    rfl (by decide) rfl
